import Mathlib

/-!
Shallow embedding of `src/src/index.js`: a React counter component (`App`),
a static component (`DumbComponent`), and the mount glue that renders both
into containers of a host document.

The component code is translated directly from the source. The parts of the
rendering engine the component consumes (the state-update contract of
`setCount` and the mount behaviour of `ReactDOM.render` /
`document.querySelector`) are external to the repository and are modelled
from the contract the spec states for them.
-/

namespace ReactCounter

/-- The three click handlers wired to the three buttons of `App`. -/
inductive Handler where
  | add1
  | mul5
  | reset
  deriving DecidableEq, Repr

/-- A DOM event object as passed to a React event handler. Only the fields
relevant to this program are modelled; the handlers in the source never read
any of them. -/
structure DomEvent where
  eventType : String
  defaultPrevented : Bool
  deriving DecidableEq, Repr

/-- A concrete click event, used for running event traces. -/
def click : DomEvent := { eventType := "click", defaultPrevented := false }

/-- The output tree a component render produces (the JSX result).
`el` is an ordinary element with a tag, attributes and children; `btn` is a
`<button>` carrying an `onClick` handler; `txt` is literal text. -/
inductive Node where
  | txt (s : String) : Node
  | el (tag : String) (attrs : List (String × String)) (children : List Node) : Node
  | btn (onClick : Handler) (children : List Node) : Node

/-- `handleReset` from the source: `e => { setCount(0); }`. A handler
invocation is represented by the list of values it passes to `setCount`;
the event argument `e` is bound but never read. -/
def handleReset (e : DomEvent) : List Int := [0]

/-- The inline `onClick` closure of the "Add 1" button:
`() => { setCount(count + 1); }`, closing over the `count` of the render
that created it. -/
def addOneOnClick (count : Int) (e : DomEvent) : List Int := [count + 1]

/-- The inline `onClick` closure of the "Multiply by 5" button:
`() => { setCount(count * 5); }`, closing over the `count` of the render
that created it. -/
def multiplyByFiveOnClick (count : Int) (e : DomEvent) : List Int := [count * 5]

/-- Invoking the handler wired to a button, given the `count` captured by the
render that created the handler closures, and the dispatched event. Returns
the list of `setCount` requests the handler issues. -/
def handlerInvoke : Handler → Int → DomEvent → List Int
  | Handler.add1, count, e => addOneOnClick count e
  | Handler.mul5, count, e => multiplyByFiveOnClick count e
  | Handler.reset, _, e => handleReset e

/-- Modelled from the spec: the state-update contract of the rendering
engine (`React.useState`'s setter, external to this repository). Each
`setCount(v)` request replaces the pending next state with `v`; the state
committed for the next render is the last requested value, or the current
value when no request was issued. Requests do not compound: each is computed
by the handler from its captured snapshot, not from earlier requests. -/
def applyUpdates (current : Int) : List Int → Int
  | [] => current
  | v :: rest => applyUpdates v rest

/-- One full event-dispatch cycle: the handler runs to completion against
the `count` captured by the current render, then the engine commits the
resulting state for the next render. -/
def dispatch (count : Int) (h : Handler) (e : DomEvent) : Int :=
  applyUpdates count (handlerInvoke h count e)

/-- `React.useState(0)`: the initial value of the counter state cell. -/
def initialCount : Int := 0

/-- The sequence of state values displayed by successive renders while a
list of handler activations is dispatched, each click followed by a
completed render pass: the current value, then the trace from the
dispatched successor. -/
def run (s : Int) : List Handler → List Int
  | [] => [s]
  | h :: rest => s :: run (dispatch s h click) rest

/-- The render output of the `App` component as a function of the current
`count` state: translated from the JSX returned by `App` in the source. -/
def App (count : Int) : Node :=
  Node.el "div" [("className", "counter")]
    [ Node.el "h3" [] [Node.txt "React Counter"],
      Node.el "p" [("className", "click_desc")]
        [ Node.txt "Your click count is ",
          Node.el "span" [] [Node.txt (toString count)] ],
      Node.el "div" [("className", "button_container")]
        [ Node.btn Handler.add1 [Node.txt "Add 1"],
          Node.btn Handler.mul5 [Node.txt "Multiply by 5"],
          Node.btn Handler.reset [Node.txt "Reset"] ] ]

/-- `DumbComponent` from the source: returns the fixed string "hey there";
as a React component its output is that literal text node. -/
def DumbComponent : Node := Node.txt "hey there"

/-- Reads the click-count paragraph out of a rendered tree: the leading
literal text and the text inside the `<span>` of the `<p>` element, when the
tree has the shape `App` produces. -/
def clickDescOf : Node → Option (String × String)
  | Node.el "div" _ (_ :: Node.el "p" _
      [Node.txt lead, Node.el "span" _ [Node.txt v]] :: _) => some (lead, v)
  | _ => none

/-- The displayed count value: the text inside the `<span>` of the
click-count paragraph. -/
def displayedCount (n : Node) : Option String :=
  Option.map (fun p => p.2) (clickDescOf n)

/-- Whether a rendered tree contains any interactive element (a button with
a click handler). -/
def Node.hasInteractive : Node → Bool
  | Node.txt _ => false
  | Node.btn _ _ => true
  | Node.el _ _ cs => cs.attach.any (fun c => Node.hasInteractive c.1)
decreasing_by
  simp_wf
  have h := List.sizeOf_lt_of_mem c.2
  omega

/-- The host document: a set of addressable container elements, each with
its currently rendered content. -/
structure Document where
  containers : List (String × List Node)

/-- `document.querySelector(sel)`: yields the selector when a container
matching it exists in the document, and nothing otherwise (the source's
`null`). -/
def Document.querySelector (doc : Document) (sel : String) : Option String :=
  if doc.containers.any (fun c => c.1 == sel) then some sel else none

/-- The content of the container identified by `sel`, when it exists. -/
def Document.contentOf (doc : Document) (sel : String) : Option (List Node) :=
  Option.map (fun c => c.2) (doc.containers.find? (fun c => c.1 == sel))

/-- Modelled from the spec: `ReactDOM.render(output, target)`, external to
this repository. When `target` is a container obtained from
`querySelector`, the container's content is replaced by the component's
output; when `target` is the source's `null` (here `none`), the call is a
no-op: the document is returned unchanged and, the function being total, no
error is raised. -/
def reactRender (doc : Document) (output : Node) : Option String → Document
  | none => doc
  | some sel =>
      ⟨doc.containers.map (fun c => if c.1 == sel then (c.1, [output]) else c)⟩

/-- Modelled from the spec: the host document's markup (not under `src/`)
provides exactly two addressable containers, the `#root` div for the
counter and the `#dumbParagraph` element for the static text, both
initially empty. -/
def hostDocument : Document :=
  ⟨[("#root", []), ("#dumbParagraph", [])]⟩

/-- The mount step at the bottom of the source: render `<App />` (with its
initial state) into `#root`, then `<DumbComponent />` into
`#dumbParagraph`. -/
def mountAll (doc : Document) : Document :=
  let doc1 := reactRender doc (App initialCount) (doc.querySelector "#root")
  reactRender doc1 DumbComponent (doc1.querySelector "#dumbParagraph")

/-- Modelled from the spec: the scenario of P6, a hypothetical handler body
that calls the captured-value increment (`setCount(count + 1)`) twice in a
single invocation. Not present in the source, which issues one request per
handler; both requests are computed from the one `count` captured by the
creating render. -/
def doubleAddOneBody (count : Int) (e : DomEvent) : List Int :=
  addOneOnClick count e ++ addOneOnClick count e

/-- For every count value, the rendered tree displays exactly that value in
the click-count span. -/
theorem displayedCount_App (c : Int) : displayedCount (App c) = some (toString c) :=
  rfl

/-- C1: two `setCount(count + 1)` requests issued in one handler invocation
both compute from the same captured `count`, so the committed next state is
`count + 1`, a single increment; concretely, from displayed value 3 the next
render displays 4, not 5. -/
theorem stale_closure_double_increment_is_single :
    (∀ (c : Int) (e : DomEvent), applyUpdates c (doubleAddOneBody c e) = c + 1) ∧
    applyUpdates 3 (doubleAddOneBody 3 click) = 4 ∧
    displayedCount (App (applyUpdates 3 (doubleAddOneBody 3 click))) = some "4" ∧
    applyUpdates 3 (doubleAddOneBody 3 click) ≠ 5 :=
  ⟨fun _ _ => rfl, rfl, rfl, by decide⟩

/-- C2: when `querySelector` finds no container for the requested selector,
`ReactDOM.render` leaves the whole document unchanged — nothing is rendered
for the component and no other container's content changes; the render
function is total, so no error is raised. -/
theorem mount_missing_container_noop (doc : Document) (sel : String) (out : Node)
    (h : doc.querySelector sel = none) :
    reactRender doc out (doc.querySelector sel) = doc := by
  rw [h]
  rfl

/-- Witness for C2: the host document has no `#missing` container, and
mounting the counter against it leaves the host document unchanged. -/
theorem mount_missing_container_noop_witness :
    reactRender hostDocument (App initialCount) (hostDocument.querySelector "#missing")
      = hostDocument :=
  mount_missing_container_noop hostDocument "#missing" (App initialCount) (by decide)

/-- C3: for every current value `v`, the "Add 1" handler requests
`setCount(v + 1)`, the committed next state is `v + 1`, and the next render
displays `v + 1`. -/
theorem add_one_increments (v : Int) (e : DomEvent) :
    handlerInvoke Handler.add1 v e = [v + 1] ∧
    dispatch v Handler.add1 e = v + 1 ∧
    displayedCount (App (dispatch v Handler.add1 e)) = some (toString (v + 1)) :=
  ⟨rfl, rfl, displayedCount_App (v + 1)⟩

/-- C4: for every current value `v`, the "Multiply by 5" handler requests
`setCount(v * 5)`, the committed next state is `v * 5`, and the next render
displays `v * 5`. -/
theorem multiply_by_five_scales (v : Int) (e : DomEvent) :
    handlerInvoke Handler.mul5 v e = [v * 5] ∧
    dispatch v Handler.mul5 e = v * 5 ∧
    displayedCount (App (dispatch v Handler.mul5 e)) = some (toString (v * 5)) :=
  ⟨rfl, rfl, displayedCount_App (v * 5)⟩

/-- C5: for every current value `v` (including 0), the "Reset" handler
unconditionally requests `setCount(0)`, the next render displays 0, and a
second Reset dispatched right after yields the same state as the first
(idempotence). -/
theorem reset_always_zero_and_idempotent (v : Int) (e e' : DomEvent) :
    handlerInvoke Handler.reset v e = [0] ∧
    dispatch v Handler.reset e = 0 ∧
    displayedCount (App (dispatch v Handler.reset e)) = some "0" ∧
    dispatch (dispatch v Handler.reset e) Handler.reset e' = dispatch v Handler.reset e :=
  ⟨rfl, rfl, rfl, rfl⟩

/-- C6: the counter state cell starts at `React.useState(0)`'s initial value
0, the first render's paragraph shows the literal "Your click count is "
followed by "0", every event trace from a fresh mount begins at that initial
value, and later values arise only by dispatching handlers, never by
re-initialisation. -/
theorem initial_render_shows_zero :
    initialCount = 0 ∧
    clickDescOf (App initialCount) = some ("Your click count is ", "0") ∧
    displayedCount (App initialCount) = some "0" ∧
    (∀ es : List Handler, (run initialCount es).head? = some initialCount) ∧
    (∀ (h : Handler) (es : List Handler),
      run initialCount (h :: es) = initialCount :: run (dispatch initialCount h click) es) := by
  refine ⟨rfl, rfl, rfl, fun es => ?_, fun h es => rfl⟩
  cases es <;> rfl

/-- C7: from a fresh mount, clicking "Add 1" three times, then
"Multiply by 5", then "Reset", with a render after each click, produces the
display checkpoints 0 (initial), 3, 15, 0, the full state trace being
0, 1, 2, 3, 15, 0. -/
theorem counter_e2e_scenario :
    run initialCount [Handler.add1, Handler.add1, Handler.add1, Handler.mul5, Handler.reset]
      = [0, 1, 2, 3, 15, 0] ∧
    displayedCount (App initialCount) = some "0" ∧
    (run initialCount [Handler.add1, Handler.add1, Handler.add1]).getLast? = some 3 ∧
    displayedCount (App 3) = some "3" ∧
    (run initialCount [Handler.add1, Handler.add1, Handler.add1, Handler.mul5]).getLast?
      = some 15 ∧
    displayedCount (App 15) = some "15" ∧
    (run initialCount
        [Handler.add1, Handler.add1, Handler.add1, Handler.mul5, Handler.reset]).getLast?
      = some 0 ∧
    displayedCount (App 0) = some "0" := by
  refine ⟨rfl, rfl, ?_, rfl, ?_, rfl, ?_, rfl⟩ <;> rfl

/-- Counterexample for C8: at current value 0, activating "Multiply by 5"
requests 0 × 5 = 0, the current value, and "Multiply by 5" is not "Reset" —
so Reset-when-already-zero is not the only handler activation whose
requested value equals the current value. -/
theorem handlers_always_new_value_counterexample :
    ¬ (∀ (v : Int) (h : Handler) (e : DomEvent),
        dispatch v h e = v → h = Handler.reset ∧ v = 0) := by
  intro hall
  have h0 := hall 0 Handler.mul5 click rfl
  exact absurd h0.1 (by decide)

/-- C8 (amended): a handler activation requests a value equal to the current
one exactly when the current value is 0 and the handler is "Reset" or
"Multiply by 5"; every other activation produces a materially new value. -/
theorem handlers_new_value_amended (v : Int) (h : Handler) (e : DomEvent) :
    dispatch v h e = v ↔ v = 0 ∧ (h = Handler.reset ∨ h = Handler.mul5) := by
  cases h <;>
    simp [dispatch, handlerInvoke, applyUpdates, addOneOnClick,
      multiplyByFiveOnClick, handleReset] <;>
    omega

/-- C9: `DumbComponent` is a constant (zero-argument, stateless,
handler-free) whose output is the fixed text "hey there" with no interactive
element, and after the mount step its container holds exactly that literal
text. -/
theorem dumb_component_static_text :
    DumbComponent = Node.txt "hey there" ∧
    Node.hasInteractive DumbComponent = false ∧
    (mountAll hostDocument).contentOf "#dumbParagraph" = some [Node.txt "hey there"] := by
  refine ⟨rfl, ?_, rfl⟩
  simp [DumbComponent, Node.hasInteractive]

/-- C10: each handler's requested next state depends only on the count
captured by its creating render, never on the event object: two invocations
from the same snapshot with arbitrary different events issue identical
requests and commit identical next states, namely +1, ×5, or 0. -/
theorem handlers_ignore_event_object (h : Handler) (c : Int) (e1 e2 : DomEvent) :
    handlerInvoke h c e1 = handlerInvoke h c e2 ∧
    dispatch c h e1 = dispatch c h e2 ∧
    handlerInvoke h c e1 =
      (match h with
       | Handler.add1 => [c + 1]
       | Handler.mul5 => [c * 5]
       | Handler.reset => [0]) := by
  cases h <;> exact ⟨rfl, rfl, rfl⟩

end ReactCounter
